import Mathlib

/-!
Shallow embedding of the BWT data-update coordinator
(`custom_components/bwthaf/coordinator.py`) and proofs about it.

Python dictionaries are modelled as association lists with Python's
insertion semantics: overwriting an existing key keeps its position,
a fresh key is appended at the end.  Python values appearing in the
snapshot (booleans, integers, strings, datetimes, `None`) are modelled
by the inductive type `Val`; JSON values occurring in the chart payload
are modelled by `JVal`.
-/

namespace BWT

/-- Snapshot values: Python booleans, integers, strings, timezone-aware
datetimes (modelled as an abstract integer instant) and `None`. -/
inductive Val where
  | vBool : Bool → Val
  | vInt : Int → Val
  | vStr : String → Val
  | vTime : Int → Val
  | vNone : Val
deriving DecidableEq, Repr

/-- A Python dict from field names to values. -/
abbrev Dict := List (String × Val)

/-- Dict lookup (`d[k]` / `k in d`). -/
def dlookup : Dict → String → Option Val
  | [], _ => none
  | (k', v) :: rest, k => if k' = k then some v else dlookup rest k

/-- Dict write `d[k] = v`: an existing key keeps its position, a fresh
key is appended, as in CPython. -/
def dinsert : Dict → String → Val → Dict
  | [], k, v => [(k, v)]
  | (k', v') :: rest, k, v =>
    if k' = k then (k, v) :: rest else (k', v') :: dinsert rest k v

/-- `d.update(u)`: write every pair of `u` into `d`, in order. -/
def dupdate (d : Dict) (u : List (String × Val)) : Dict :=
  u.foldl (fun acc kv => dinsert acc kv.1 kv.2) d

/-- `k in d`. -/
def dmem (k : String) (d : Dict) : Bool := (dlookup d k).isSome

/-- Last-write-wins lookup in a plain pair list: the value of the last
pair whose key is `k`, if any.  Used to state what a sequence of dict
writes amounts to. -/
def wlookup : List (String × Val) → String → Option Val
  | [], _ => none
  | (k', v) :: rest, k =>
    match wlookup rest k with
    | some w => some w
    | none => if k' = k then some v else none

theorem dlookup_dinsert (d : Dict) (k k' : String) (v : Val) :
    dlookup (dinsert d k v) k' = if k' = k then some v else dlookup d k' := by
  induction d with
  | nil =>
    simp only [dinsert, dlookup]
    split_ifs <;> simp_all
  | cons hd tl ih =>
    obtain ⟨k0, v0⟩ := hd
    by_cases h0 : k0 = k
    · subst h0
      simp only [dinsert, if_pos rfl, dlookup]
      by_cases h : k0 = k'
      · subst h; simp
      · simp [h, Ne.symm h]
    · simp only [dinsert, if_neg h0, dlookup, ih]
      by_cases h1 : k0 = k'
      · subst h1
        simp [h0]
      · simp [h1]

theorem dupdate_nil (d : Dict) : dupdate d [] = d := rfl

theorem dupdate_cons (d : Dict) (k : String) (v : Val) (u : List (String × Val)) :
    dupdate d ((k, v) :: u) = dupdate (dinsert d k v) u := rfl

theorem dlookup_dupdate (d : Dict) (u : List (String × Val)) (k : String) :
    dlookup (dupdate d u) k =
      match wlookup u k with
      | some v => some v
      | none => dlookup d k := by
  induction u generalizing d with
  | nil => simp [dupdate_nil, wlookup]
  | cons hd tl ih =>
    obtain ⟨k0, v0⟩ := hd
    rw [dupdate_cons, ih]
    cases htl : wlookup tl k with
    | some w => simp [wlookup, htl]
    | none =>
      by_cases h : k0 = k
      · subst h
        simp [wlookup, htl, dlookup_dinsert]
      · simp [wlookup, htl, h, dlookup_dinsert, Ne.symm h]

theorem wlookup_eq_none_iff (u : List (String × Val)) (k : String) :
    wlookup u k = none ↔ k ∉ u.map Prod.fst := by
  induction u with
  | nil => simp [wlookup]
  | cons hd tl ih =>
    obtain ⟨k0, v0⟩ := hd
    simp only [wlookup, List.map_cons, List.mem_cons, not_or]
    cases htl : wlookup tl k with
    | some w =>
      have hk : k ∈ tl.map Prod.fst := by
        by_contra hc
        simp [ih.mpr hc] at htl
      simp [hk]
    | none =>
      have hk := ih.mp htl
      by_cases h : k0 = k
      · subst h; simp [hk]
      · simp [h, Ne.symm h, hk]

theorem dmem_of_dlookup {d : Dict} {k : String} {v : Val}
    (h : dlookup d k = some v) : dmem k d = true := by
  simp [dmem, h]

theorem dmem_dinsert (d : Dict) (k k' : String) (v : Val)
    (h : dmem k d = true) : dmem k (dinsert d k' v) = true := by
  simp only [dmem, dlookup_dinsert]
  by_cases hk : k = k'
  · simp [hk]
  · simpa [hk, dmem] using h

theorem dmem_dinsert_self (d : Dict) (k : String) (v : Val) :
    dmem k (dinsert d k v) = true := by
  simp [dmem, dlookup_dinsert]

theorem dmem_dupdate_left (d : Dict) (u : List (String × Val)) (k : String)
    (h : dmem k d = true) : dmem k (dupdate d u) = true := by
  simp only [dmem, dlookup_dupdate]
  cases hw : wlookup u k with
  | some w => simp
  | none => simpa [dmem] using h

theorem dmem_dupdate_right (d : Dict) (u : List (String × Val)) (k : String)
    (h : k ∈ u.map Prod.fst) : dmem k (dupdate d u) = true := by
  simp only [dmem, dlookup_dupdate]
  cases hw : wlookup u k with
  | some w => simp
  | none => exact absurd h ((wlookup_eq_none_iff u k).mp hw)

theorem mem_keys_of_dlookup {d : Dict} {k : String} {v : Val}
    (h : dlookup d k = some v) : k ∈ d.map Prod.fst := by
  induction d with
  | nil => simp [dlookup] at h
  | cons hd tl ih =>
    obtain ⟨k0, v0⟩ := hd
    by_cases h0 : k0 = k
    · subst h0; simp
    · simp only [dlookup, if_neg h0] at h
      simp [ih h]

theorem three_dmem_length (d : Dict) (k1 k2 k3 : String)
    (h12 : k1 ≠ k2) (h13 : k1 ≠ k3) (h23 : k2 ≠ k3)
    (h1 : dmem k1 d = true) (h2 : dmem k2 d = true) (h3 : dmem k3 d = true) :
    3 ≤ d.length := by
  simp only [dmem, Option.isSome_iff_exists] at h1 h2 h3
  obtain ⟨v1, hv1⟩ := h1
  obtain ⟨v2, hv2⟩ := h2
  obtain ⟨v3, hv3⟩ := h3
  have m1 := mem_keys_of_dlookup hv1
  have m2 := mem_keys_of_dlookup hv2
  have m3 := mem_keys_of_dlookup hv3
  have hsub : ({k1, k2, k3} : Finset String) ⊆ (d.map Prod.fst).toFinset := by
    intro x hx
    rw [List.mem_toFinset]
    simp only [Finset.mem_insert, Finset.mem_singleton] at hx
    rcases hx with rfl | rfl | rfl
    · exact m1
    · exact m2
    · exact m3
  have hcard : ({k1, k2, k3} : Finset String).card = 3 := by
    rw [Finset.card_insert_of_not_mem (by simp [h12, h13]),
      Finset.card_insert_of_not_mem (by simp [h23]), Finset.card_singleton]
  calc 3 = ({k1, k2, k3} : Finset String).card := hcard.symm
    _ ≤ (d.map Prod.fst).toFinset.card := Finset.card_le_card hsub
    _ ≤ (d.map Prod.fst).length := (d.map Prod.fst).toFinset_card_le
    _ = d.length := by simp

/-- `"pat" in hay` on char lists: some suffix of `hay` starts with `pat`. -/
def subOccurs (pat : List Char) : List Char → Bool
  | [] => pat.isEmpty
  | c :: rest => pat.isPrefixOf (c :: rest) || subOccurs pat rest

/-- Python's substring containment test `pat in hay`. -/
def strContains (hay pat : String) : Bool := subOccurs pat.toList hay.toList

/-!
## Rollover-Aware Counter (`_async_update_data`, lines 92-102)

`_last_water_consumption` starts at `0` in `__init__`.  The increment is
computed only when the stored baseline is strictly positive; the baseline
is unconditionally set to the current value afterwards.
-/

/-- One counter step: `(increment, new stored baseline)` for a current
cumulative value, given the stored baseline `last`. -/
def computeIncrement (last current : Int) : Int × Int :=
  if last > 0 then
    (if current < last then current else current - last, current)
  else (0, current)

/-- Run the counter over a whole sequence starting from baseline `last`,
collecting the increments. -/
def incrGo (last : Int) : List Int → List Int
  | [] => []
  | v :: rest => (computeIncrement last v).1 :: incrGo (computeIncrement last v).2 rest

/-- The increment sequence produced for a sequence of cumulative values,
starting from the initial baseline `0` set in `__init__`. -/
def runIncrements (vals : List Int) : List Int := incrGo 0 vals

theorem incrGo_length (last : Int) (vals : List Int) :
    (incrGo last vals).length = vals.length := by
  induction vals generalizing last with
  | nil => rfl
  | cons v rest ih => simp [incrGo, ih]

theorem computeIncrement_snd (last v : Int) : (computeIncrement last v).2 = v := by
  by_cases h : last > 0 <;> simp [computeIncrement, h]

theorem incrGo_getD (last : Int) (vals : List Int) (i : Nat) (h : i < vals.length) :
    (incrGo last vals).getD i 0 =
      (let prev := if i = 0 then last else vals.getD (i - 1) 0
       if prev > 0 then
         (if vals.getD i 0 < prev then vals.getD i 0 else vals.getD i 0 - prev)
       else 0) := by
  induction vals generalizing last i with
  | nil => simp at h
  | cons v rest ih =>
    cases i with
    | zero =>
      simp only [incrGo, List.getD_cons_zero]
      by_cases hl : last > 0 <;> simp [computeIncrement, hl]
    | succ j =>
      have hj : j < rest.length := by simpa using h
      have := ih (computeIncrement last v).2 j hj
      simp only [incrGo, List.getD_cons_succ]
      rw [this, computeIncrement_snd]
      cases j with
      | zero => simp
      | succ j0 => simp

theorem incrGo_nonneg (last : Int) (vals : List Int) (h0 : 0 ≤ last)
    (hv : ∀ v ∈ vals, 0 ≤ v) : ∀ x ∈ incrGo last vals, 0 ≤ x := by
  induction vals generalizing last with
  | nil => intro x hx; simp [incrGo] at hx
  | cons v rest ih =>
    intro x hx
    have hvv : 0 ≤ v := hv v (by simp)
    simp only [incrGo, List.mem_cons] at hx
    rcases hx with rfl | hx
    · by_cases hl : last > 0
      · by_cases hc : v < last <;> simp [computeIncrement, hl, hc] <;> omega
      · simp [computeIncrement, hl]
    · refine ih (computeIncrement last v).2 ?_ (fun w hw => hv w (by simp [hw])) x hx
      rw [computeIncrement_snd]; exact hvv

/-!
## Main-Data Extractor (`_get_main_data`, lines 159-207)

The HTTP response and its JSON body are oracles: `MainResp.status` is the
response status code and `MainResp.body` the outcome of `response.json()`.
A JSON category value is iterated only when it is a list (`isinstance`
check); list entries are objects with optional `code` and `value`, where
an absent `value` key and a JSON `null` value both give Python `None`
under `item.get("value")`, so both are a `none` here.
-/

structure MainItem where
  code : Option String
  value : Option Val
deriving DecidableEq, Repr

inductive CatVal where
  | list : List MainItem → CatVal
  | other : CatVal
deriving DecidableEq, Repr

structure MainDataObj where
  standBy : Option Val
  salt : Option Val
deriving DecidableEq, Repr

structure MainPayload where
  online : Option Val
  dataObj : Option MainDataObj
  dataCategories : List (String × CatVal)
deriving DecidableEq, Repr

structure MainResp where
  status : Int
  body : Except String MainPayload

/-- The fixed vendor-code to canonical-key mapping (lines 176-189). -/
def codeMapping : List (String × String) :=
  [("resinVol", "resin_vol"),
   ("inHardness", "in_hardness"),
   ("outHardness", "out_hardness"),
   ("pressure", "pressure"),
   ("salt", "salt"),
   ("volOK", "vol_ok"),
   ("rssiLevel", "wifi_signal")]

/-- Process one category item (lines 195-203): the `if code and value is
not None` guard followed by the `if code in code_mapping` lookup. -/
def mainItemStep (r : Dict) (it : MainItem) : Dict :=
  match it.code, it.value with
  | some c, some v =>
    if c ≠ "" then
      match codeMapping.lookup c with
      | some mappedKey => dinsert r mappedKey v
      | none => r
    else r
  | _, _ => r

/-- The initial result dict of `_get_main_data` (lines 169-173):
`online`, `standby` and `salt` from the top-level payload, with the
Python defaults `False`, `False` and `None`. -/
def mainBase (p : MainPayload) : Dict :=
  dinsert
    (dinsert
      (dinsert [] "online" (p.online.getD (Val.vBool false)))
      "standby" ((p.dataObj.getD ⟨none, none⟩).standBy.getD (Val.vBool false)))
    "salt" ((p.dataObj.getD ⟨none, none⟩).salt.getD Val.vNone)

/-- Process one category (lines 193-194): only list-valued categories
are traversed. -/
def mainCatStep (r : Dict) (cat : String × CatVal) : Dict :=
  match cat.2 with
  | CatVal.list items => items.foldl mainItemStep r
  | CatVal.other => r

/-- `_get_main_data`: status check, JSON decode, base fields, category
traversal. -/
def getMainData (resp : MainResp) : Except String Dict :=
  if resp.status ≠ 200 then Except.error "Failed to fetch main data"
  else
    match resp.body with
    | Except.error e => Except.error e
    | Except.ok p => Except.ok (p.dataCategories.foldl mainCatStep (mainBase p))

/-- The write a single qualifying item performs: its catalog key and its
unchanged value. -/
def itemWrite (it : MainItem) : Option (String × Val) :=
  match it.code, it.value with
  | some c, some v =>
    if c ≠ "" then (codeMapping.lookup c).map (fun mappedKey => (mappedKey, v))
    else none
  | _, _ => none

/-- All writes performed while traversing the categories, in order. -/
def catWritesList : List (String × CatVal) → List (String × Val)
  | [] => []
  | cat :: rest =>
    (match cat.2 with
     | CatVal.list items => items.filterMap itemWrite
     | CatVal.other => []) ++ catWritesList rest

theorem mainItemStep_eq (r : Dict) (it : MainItem) :
    mainItemStep r it =
      match itemWrite it with
      | some kv => dinsert r kv.1 kv.2
      | none => r := by
  cases it with
  | mk c v =>
    cases c with
    | none => rfl
    | some c0 =>
      cases v with
      | none => rfl
      | some v0 =>
        by_cases hc : c0 ≠ ""
        · simp only [mainItemStep, itemWrite, if_pos hc]
          cases codeMapping.lookup c0 <;> simp
        · simp [mainItemStep, itemWrite, hc]

theorem foldl_mainItemStep_eq (items : List MainItem) (r : Dict) :
    items.foldl mainItemStep r = dupdate r (items.filterMap itemWrite) := by
  induction items generalizing r with
  | nil => rfl
  | cons it rest ih =>
    rw [List.foldl_cons, ih, mainItemStep_eq]
    cases hw : itemWrite it with
    | none => simp [List.filterMap_cons, hw]
    | some kv =>
      simp only [List.filterMap_cons, hw]
      rfl

theorem dupdate_append (d : Dict) (u1 u2 : List (String × Val)) :
    dupdate d (u1 ++ u2) = dupdate (dupdate d u1) u2 := by
  simp [dupdate, List.foldl_append]

theorem foldl_mainCatStep_eq (cats : List (String × CatVal)) (r : Dict) :
    cats.foldl mainCatStep r = dupdate r (catWritesList cats) := by
  induction cats generalizing r with
  | nil => rfl
  | cons cat rest ih =>
    rw [List.foldl_cons, ih, catWritesList, dupdate_append]
    congr 1
    cases cat with
    | mk name cv =>
      cases cv with
      | list items => simpa [mainCatStep] using foldl_mainItemStep_eq items r
      | other => rfl

theorem getMainData_eq (resp : MainResp) (p : MainPayload)
    (hs : resp.status = 200) (hb : resp.body = Except.ok p) :
    getMainData resp = Except.ok (dupdate (mainBase p) (catWritesList p.dataCategories)) := by
  simp [getMainData, hs, hb, foldl_mainCatStep_eq]

theorem dlookup_mainBase (p : MainPayload) (k : String)
    (h1 : k ≠ "online") (h2 : k ≠ "standby") (h3 : k ≠ "salt") :
    dlookup (mainBase p) k = none := by
  simp [mainBase, dlookup_dinsert, dlookup, h1, h2, h3, Ne.symm h1, Ne.symm h2, Ne.symm h3]

/-!
## Consumption Extractor (`_get_consumption_data`, lines 209-293)

Network responses and the parses of external library calls are oracles:
`liveDiv` is the result of looking up the `data-controller: live` div in
the device page (with the outcome of `json.loads` on its decoded props
attribute), `graphDiv` the result of looking up `graph_device` in the
fragment returned by the load-consumption POST, with the outcomes of
`json.loads` on the chart dataset and of `int()` on the salt attribute.
`datetime.strptime` is an explicit parameter `parse : value → format →
Option instant`; a `some` result stands for a successfully parsed naive
datetime already converted through `dt_util.as_utc`.
-/

/-- JSON values occurring in a chart line. -/
inductive JVal where
  | jb : Bool → JVal
  | ji : Int → JVal
  | js : String → JVal
  | jnull : JVal
deriving DecidableEq, Repr

abbrev ChartLine := List JVal

structure Dataset where
  refreshDate : Option String
  lines : List ChartLine
deriving DecidableEq, Repr

structure LiveDivO where
  propsParse : Except String Unit

structure GraphDivO where
  datasetParse : Except String Dataset
  saltParse : Except String Int

structure ConsoOracle where
  liveDiv : Option LiveDivO
  graphDiv : Option GraphDivO

/-- Python truthiness of a JSON value (`if first_line[1]`). -/
def pyTruthy : JVal → Bool
  | JVal.jb b => b
  | JVal.ji n => n ≠ 0
  | JVal.js s => s ≠ ""
  | JVal.jnull => false

/-- Python `int(x)` on a JSON value; `int` of a decimal string is
modelled by `String.toInt?`, non-numeric strings and `None` raise. -/
def pyToInt : JVal → Except String Int
  | JVal.jb b => Except.ok (if b then 1 else 0)
  | JVal.ji n => Except.ok n
  | JVal.js s =>
    match s.toInt? with
    | some n => Except.ok n
    | none => Except.error "invalid literal for int"
  | JVal.jnull => Except.error "int argument must be a string or a number, not NoneType"

/-- Embedding of a JSON value into a snapshot value. -/
def jToVal : JVal → Val
  | JVal.jb b => Val.vBool b
  | JVal.ji n => Val.vInt n
  | JVal.js s => Val.vStr s
  | JVal.jnull => Val.vNone

/-- `x if isinstance(x, bool) else False` (lines 279 and 281). -/
def boolOrFalse : JVal → Val
  | JVal.jb b => Val.vBool b
  | _ => Val.vBool false

/-- The ordered candidate timestamp formats (line 258). -/
def tsFormats : List String :=
  ["%Y-%m-%dT%H:%M:%S.%f", "%Y-%m-%d %H:%M:%S", "%Y-%m-%dT%H:%M:%S", "%Y-%m-%d"]

/-- Try the formats in order, stopping at the first success (the `for
... break / else` loop of lines 258-264). -/
def firstFormatParse (parse : String → String → Option Int) :
    List String → String → Option Int
  | [], _ => none
  | fmt :: rest, s =>
    match parse s fmt with
    | some t => some t
    | none => firstFormatParse parse rest s

/-- Lines 253-270: parse `refreshDate` when it is truthy; on total parse
failure the field is written as `None` (not left out). -/
def refreshStep (parse : String → String → Option Int) (ds : Dataset) (r : Dict) : Dict :=
  match ds.refreshDate with
  | none => r
  | some s =>
    if s = "" then r
    else
      match firstFormatParse parse tsFormats s with
      | some t => dinsert r "refresh_date" (Val.vTime t)
      | none => dinsert r "refresh_date" Val.vNone

/-- Lines 272-290: extract the first chart line when it has at least 5
positions; `int()` failures propagate, the `last_update` parse failure
is downgraded to `None`. -/
def linesStep (parse : String → String → Option Int) (saltPerRegen : Int)
    (lines : List ChartLine) (r : Dict) : Except String Dict :=
  match lines with
  | [] => Except.ok r
  | firstLine :: _ =>
    if firstLine.length < 5 then Except.ok r
    else
      let e0 := firstLine.getD 0 JVal.jnull
      let e1 := firstLine.getD 1 JVal.jnull
      let e2 := firstLine.getD 2 JVal.jnull
      let e3 := firstLine.getD 3 JVal.jnull
      let e4 := firstLine.getD 4 JVal.jnull
      let r1 := dinsert r "last_date" (jToVal e0)
      match (if pyTruthy e1 then pyToInt e1 else Except.ok 0) with
      | Except.error e => Except.error e
      | Except.ok regenCount =>
        let r2 := dinsert r1 "regen_count" (Val.vInt regenCount)
        let r3 := dinsert r2 "power_outage" (boolOrFalse e2)
        match (if pyTruthy e3 then pyToInt e3 else Except.ok 0) with
        | Except.error e => Except.error e
        | Except.ok water =>
          let r4 := dinsert r3 "water_consumption" (Val.vInt water)
          let r5 := dinsert r4 "salt_alarm" (boolOrFalse e4)
          let r6 := dinsert r5 "salt_consumption" (Val.vInt (regenCount * saltPerRegen))
          let r7 :=
            match jToVal e0 with
            | Val.vStr s0 =>
              (match parse s0 "%Y-%m-%d" with
               | some t => dinsert r6 "last_update" (Val.vTime t)
               | none => dinsert r6 "last_update" Val.vNone)
            | _ => dinsert r6 "last_update" Val.vNone
          Except.ok r7

/-- `_get_consumption_data`: a missing live div is fatal, a missing
graph div returns an empty dict. -/
def getConsumptionData (parse : String → String → Option Int) (o : ConsoOracle) :
    Except String Dict :=
  match o.liveDiv with
  | none => Except.error "Live div not found"
  | some live =>
    match live.propsParse with
    | Except.error e => Except.error e
    | Except.ok _ =>
      match o.graphDiv with
      | none => Except.ok []
      | some g =>
        match g.datasetParse with
        | Except.error e => Except.error e
        | Except.ok ds =>
          match g.saltParse with
          | Except.error e => Except.error e
          | Except.ok saltPerRegen =>
            linesStep parse saltPerRegen ds.lines
              (refreshStep parse ds (dinsert [] "salt_per_regen" (Val.vInt saltPerRegen)))

/-!
## Poll Orchestrator (`_async_update_data`, lines 56-115)

Coordinator state as mutated across one cycle: `receiptLineKey` is the
device-correlation token, `lastMainUpdate` the monotonic time of the
last successful main fetch, `lastWaterConsumption` the rollover
baseline, `data` the published snapshot (`self.data`, set by the update
framework from the method's return value and kept on failure).

The outcomes of `_authenticate`, `_get_main_data` and
`_get_consumption_data` for this cycle are oracles in `CycleInput`; an
`Except.error` carries `str(err)` of the raised exception.  The two
`self.hass.loop.time()` reads of lines 72 and 76 are both modelled by
`now`.

One divergence from CPython, marked below: when the merged dict carries
a non-integer `water_consumption`, the model raises in both branches of
the baseline test, whereas Python raises only from the comparison with a
positive stored baseline (no repository code ever writes a non-integer
there).
-/

structure CoordState where
  receiptLineKey : Option String
  lastMainUpdate : Int
  lastWaterConsumption : Int
  data : Option Dict
deriving DecidableEq, Repr

structure CycleInput where
  now : Int
  intervalMain : Int
  authResult : Except String String
  mainResult : Except String Dict
  consumptionResult : Except String Dict

/-- The coordinator state right after `__init__` (lines 40-42, `data`
starts as `None` in the base class). -/
def initState : CoordState :=
  { receiptLineKey := none, lastMainUpdate := 0, lastWaterConsumption := 0, data := none }

/-- Line 72: is the main fetch due this cycle? -/
def mainDue (inp : CycleInput) (st : CoordState) : Bool :=
  inp.now - st.lastMainUpdate > inp.intervalMain

/-- Did the main fetch run and succeed (lines 72-80)? -/
def mainFetchOk (inp : CycleInput) : Bool :=
  match inp.mainResult with
  | Except.ok _ => true
  | Except.error _ => false

/-- Lines 64-89: copy the previous snapshot, merge the main fetch when
due and successful, then merge the consumption fetch when successful. -/
def mergedBeforeIncrement (inp : CycleInput) (st : CoordState) : Dict :=
  let data0 := st.data.getD []
  let data1 :=
    if mainDue inp st then
      match inp.mainResult with
      | Except.ok m => dupdate data0 m
      | Except.error _ => data0
    else data0
  match inp.consumptionResult with
  | Except.ok c => dupdate data1 c
  | Except.error _ => data1

/-- Line 76: the last-main-fetch timestamp is advanced only when the
main fetch was attempted and succeeded. -/
def stAfterMain (inp : CycleInput) (st : CoordState) : CoordState :=
  if mainDue inp st && mainFetchOk inp then { st with lastMainUpdate := inp.now } else st

/-- Lines 92-102 followed by the sufficiency check of lines 104-106. -/
def runCycleBody (inp : CycleInput) (st : CoordState) : Except String Dict × CoordState :=
  match dlookup (mergedBeforeIncrement inp st) "water_consumption" with
  | some (Val.vInt current) =>
    let p := computeIncrement (stAfterMain inp st).lastWaterConsumption current
    let data3 := dinsert (mergedBeforeIncrement inp st) "water_increment" (Val.vInt p.1)
    let st3 := { stAfterMain inp st with lastWaterConsumption := p.2 }
    if data3.isEmpty || data3.length < 3 then (Except.error "Insufficient data received", st3)
    else (Except.ok data3, st3)
  | some _ =>
    -- divergence from CPython for a non-integer cumulative value, see above
    (Except.error "TypeError: unsupported comparison of str and int", stAfterMain inp st)
  | none =>
    if (mergedBeforeIncrement inp st).isEmpty || (mergedBeforeIncrement inp st).length < 3
    then (Except.error "Insufficient data received", stAfterMain inp st)
    else (Except.ok (mergedBeforeIncrement inp st), stAfterMain inp st)

/-- The `try` block of `_async_update_data` (lines 58-108): authenticate
when no token is held, then run the body.  State mutations made before a
raise persist. -/
def runCycleTry (inp : CycleInput) (st : CoordState) : Except String Dict × CoordState :=
  match st.receiptLineKey with
  | none =>
    match inp.authResult with
    | Except.error e => (Except.error e, st)
    | Except.ok key => runCycleBody inp { st with receiptLineKey := some key }
  | some _ => runCycleBody inp st

/-- One full cycle (lines 56-115): the `except` handler clears the token
when `str(err)` carries a 401/403 marker and re-raises a wrapped
`UpdateFailed`; the framework stores the returned snapshot in
`self.data` on success and keeps the previous one on failure. -/
def runCycle (inp : CycleInput) (st : CoordState) : Except String Dict × CoordState :=
  match runCycleTry inp st with
  | (Except.ok d, st1) => (Except.ok d, { st1 with data := some d })
  | (Except.error e, st1) =>
    (Except.error ("Error communicating with API: " ++ e),
     if strContains e "401" || strContains e "403" then { st1 with receiptLineKey := none }
     else st1)

/-- The auth step of this cycle does not abort it: either a token is
already held, or this cycle's authentication succeeds. -/
def authPasses (inp : CycleInput) (st : CoordState) : Prop :=
  st.receiptLineKey.isSome = true ∨ ∃ key, inp.authResult = Except.ok key

/-- The snapshot this cycle would publish: the merge of lines 64-89 plus
the increment of lines 92-102. -/
def mergedSnapshot (inp : CycleInput) (st : CoordState) : Dict :=
  match dlookup (mergedBeforeIncrement inp st) "water_consumption" with
  | some (Val.vInt current) =>
    dinsert (mergedBeforeIncrement inp st) "water_increment"
      (Val.vInt (computeIncrement st.lastWaterConsumption current).1)
  | _ => mergedBeforeIncrement inp st

/-- The keys written into the snapshot by this cycle's main fetch. -/
def mainWriteKeys (inp : CycleInput) (st : CoordState) : List String :=
  if mainDue inp st then
    match inp.mainResult with
    | Except.ok m => m.map Prod.fst
    | Except.error _ => []
  else []

/-- The keys written into the snapshot by this cycle's consumption fetch. -/
def consoWriteKeys (inp : CycleInput) : List String :=
  match inp.consumptionResult with
  | Except.ok c => c.map Prod.fst
  | Except.error _ => []

theorem mergedBeforeIncrement_setKey (inp : CycleInput) (st : CoordState) (k : Option String) :
    mergedBeforeIncrement inp { st with receiptLineKey := k } = mergedBeforeIncrement inp st := rfl

theorem stAfterMain_setKey (inp : CycleInput) (st : CoordState) (k : Option String) :
    stAfterMain inp { st with receiptLineKey := k } =
      { stAfterMain inp st with receiptLineKey := k } := by
  simp only [stAfterMain, mainDue]
  by_cases h : (decide (inp.now - st.lastMainUpdate > inp.intervalMain) && mainFetchOk inp) = true
  · simp [h]
  · simp [h]

theorem stAfterMain_lastWater (inp : CycleInput) (st : CoordState) :
    (stAfterMain inp st).lastWaterConsumption = st.lastWaterConsumption := by
  simp only [stAfterMain]
  by_cases h : (mainDue inp st && mainFetchOk inp) = true <;> simp [h]

theorem stAfterMain_data (inp : CycleInput) (st : CoordState) :
    (stAfterMain inp st).data = st.data := by
  simp only [stAfterMain]
  by_cases h : (mainDue inp st && mainFetchOk inp) = true <;> simp [h]

theorem stAfterMain_key (inp : CycleInput) (st : CoordState) :
    (stAfterMain inp st).receiptLineKey = st.receiptLineKey := by
  simp only [stAfterMain]
  by_cases h : (mainDue inp st && mainFetchOk inp) = true <;> simp [h]

/-- Was this cycle's result a success? -/
def exceptIsOk {α : Type} : Except String α → Bool
  | Except.ok _ => true
  | Except.error _ => false

theorem firstFormatParse_none (p : String → String → Option Int) (fmts : List String)
    (s : String) (h : ∀ fmt ∈ fmts, p s fmt = none) :
    firstFormatParse p fmts s = none := by
  induction fmts with
  | nil => rfl
  | cons f rest ih =>
    simp [firstFormatParse, h f (by simp), ih fun g hg => h g (by simp [hg])]

theorem linesStep_refresh_date (p : String → String → Option Int) (n : Int)
    (ls : List ChartLine) (r r' : Dict) (h : linesStep p n ls r = Except.ok r') :
    dlookup r' "refresh_date" = dlookup r "refresh_date" := by
  cases ls with
  | nil =>
    simp only [linesStep] at h
    cases h
    rfl
  | cons firstLine rest =>
    by_cases hl : firstLine.length < 5
    · simp only [linesStep, if_pos hl] at h
      cases h
      rfl
    · simp only [linesStep, if_neg hl] at h
      rcases hreg : (if pyTruthy (firstLine.getD 1 JVal.jnull) then
          pyToInt (firstLine.getD 1 JVal.jnull) else Except.ok 0) with e | regen
      · rw [hreg] at h; cases h
      · rw [hreg] at h
        rcases hwat : (if pyTruthy (firstLine.getD 3 JVal.jnull) then
            pyToInt (firstLine.getD 3 JVal.jnull) else Except.ok 0) with e | water
        · rw [hwat] at h; cases h
        · rw [hwat] at h
          rcases h0 : jToVal (firstLine.getD 0 JVal.jnull) with b | m | s0 | t | _ <;>
            rw [h0] at h <;> cases h
          · simp [dlookup_dinsert]
          · simp [dlookup_dinsert]
          · rcases hp2 : p s0 "%Y-%m-%d" with _ | t2 <;> simp [hp2, dlookup_dinsert]
          · simp [dlookup_dinsert]
          · simp [dlookup_dinsert]

theorem linesStep_isOk_eq (p1 p2 : String → String → Option Int) (n : Int)
    (ls : List ChartLine) (r1 r2 : Dict) :
    exceptIsOk (linesStep p1 n ls r1) = exceptIsOk (linesStep p2 n ls r2) := by
  cases ls with
  | nil => rfl
  | cons firstLine rest =>
    by_cases hl : firstLine.length < 5
    · simp [linesStep, hl, exceptIsOk]
    · simp only [linesStep, if_neg hl]
      rcases hreg : (if pyTruthy (firstLine.getD 1 JVal.jnull) then
          pyToInt (firstLine.getD 1 JVal.jnull) else Except.ok 0) with e | regen
      · rfl
      · rcases hwat : (if pyTruthy (firstLine.getD 3 JVal.jnull) then
            pyToInt (firstLine.getD 3 JVal.jnull) else Except.ok 0) with e | water
        · rfl
        · rfl

theorem getConsumptionData_isOk_eq (p1 p2 : String → String → Option Int)
    (o : ConsoOracle) :
    exceptIsOk (getConsumptionData p1 o) = exceptIsOk (getConsumptionData p2 o) := by
  obtain ⟨live, graph⟩ := o
  cases live with
  | none => rfl
  | some l =>
    cases hp : l.propsParse with
    | error e => simp [getConsumptionData, hp]
    | ok u =>
      cases graph with
      | none => simp [getConsumptionData, hp]
      | some g =>
        cases hd : g.datasetParse with
        | error e => simp [getConsumptionData, hp, hd]
        | ok ds =>
          cases hn : g.saltParse with
          | error e => simp [getConsumptionData, hp, hd, hn]
          | ok n =>
            simp only [getConsumptionData, hp, hd, hn]
            exact linesStep_isOk_eq p1 p2 n ds.lines _ _

theorem isEmpty_or_lt3 (d : Dict) :
    (d.isEmpty || decide (d.length < 3)) = decide (d.length < 3) := by
  cases d <;> simp

theorem runCycleBody_state (inp : CycleInput) (st : CoordState) :
    (runCycleBody inp st).2.data = st.data ∧
    (runCycleBody inp st).2.receiptLineKey = st.receiptLineKey ∧
    (runCycleBody inp st).2.lastMainUpdate = (stAfterMain inp st).lastMainUpdate := by
  cases hlk : dlookup (mergedBeforeIncrement inp st) "water_consumption" with
  | none =>
    simp only [runCycleBody, hlk]
    split <;> simp [stAfterMain_data, stAfterMain_key]
  | some v =>
    cases v with
    | vInt current =>
      simp only [runCycleBody, hlk]
      split <;> simp [stAfterMain_data, stAfterMain_key]
    | vBool b => simp [runCycleBody, hlk, stAfterMain_data, stAfterMain_key]
    | vStr s => simp [runCycleBody, hlk, stAfterMain_data, stAfterMain_key]
    | vTime t => simp [runCycleBody, hlk, stAfterMain_data, stAfterMain_key]
    | vNone => simp [runCycleBody, hlk, stAfterMain_data, stAfterMain_key]

theorem runCycleBody_fst (inp : CycleInput) (st : CoordState)
    (hw : ∀ v, dlookup (mergedBeforeIncrement inp st) "water_consumption" = some v →
      ∃ m, v = Val.vInt m) :
    (runCycleBody inp st).1 =
      (if (mergedSnapshot inp st).length < 3 then Except.error "Insufficient data received"
       else Except.ok (mergedSnapshot inp st)) := by
  cases hlk : dlookup (mergedBeforeIncrement inp st) "water_consumption" with
  | none =>
    simp only [runCycleBody, hlk, mergedSnapshot]
    rw [isEmpty_or_lt3]
    by_cases hlen : (mergedBeforeIncrement inp st).length < 3 <;> simp [hlen]
  | some v =>
    obtain ⟨m, rfl⟩ := hw v hlk
    simp only [runCycleBody, hlk, mergedSnapshot, stAfterMain_lastWater]
    rw [isEmpty_or_lt3]
    by_cases hlen : (dinsert (mergedBeforeIncrement inp st) "water_increment"
        (Val.vInt (computeIncrement st.lastWaterConsumption m).1)).length < 3 <;> simp [hlen]

theorem runCycleTry_auth (inp : CycleInput) (st : CoordState) (ha : authPasses inp st) :
    ∃ stA : CoordState,
      runCycleTry inp st = runCycleBody inp stA ∧
      stA.data = st.data ∧
      mergedBeforeIncrement inp stA = mergedBeforeIncrement inp st ∧
      mergedSnapshot inp stA = mergedSnapshot inp st ∧
      (stAfterMain inp stA).lastMainUpdate = (stAfterMain inp st).lastMainUpdate := by
  rcases hk : st.receiptLineKey with _ | k0
  · rcases ha with hsome | ⟨key, hkey⟩
    · rw [hk] at hsome; simp at hsome
    · refine ⟨{ st with receiptLineKey := some key }, ?_, rfl, rfl, rfl, ?_⟩
      · simp [runCycleTry, hk, hkey]
      · rw [stAfterMain_setKey]
  · exact ⟨st, by simp [runCycleTry, hk], rfl, rfl, rfl, rfl⟩

theorem runCycle_lastMain (inp : CycleInput) (st : CoordState) :
    (runCycle inp st).2.lastMainUpdate = (runCycleTry inp st).2.lastMainUpdate := by
  rcases htry : runCycleTry inp st with ⟨r, st1⟩
  cases r with
  | ok d => simp [runCycle, htry]
  | error e =>
    simp only [runCycle, htry]
    split <;> simp

theorem runCycleTry_auth_error (inp : CycleInput) (st : CoordState) (e : String)
    (hk : st.receiptLineKey = none) (he : inp.authResult = Except.error e) :
    runCycleTry inp st = (Except.error e, st) := by
  simp [runCycleTry, hk, he]

theorem mergedBeforeIncrement_mem (inp : CycleInput) (st : CoordState) (k : String)
    (h : dmem k (st.data.getD []) = true) :
    dmem k (mergedBeforeIncrement inp st) = true := by
  simp only [mergedBeforeIncrement]
  cases hcr : inp.consumptionResult with
  | ok c =>
    refine dmem_dupdate_left _ _ _ ?_
    by_cases hdue : mainDue inp st = true
    · simp only [hdue, if_pos]
      cases hmr : inp.mainResult with
      | ok m => exact dmem_dupdate_left _ _ _ h
      | error e => exact h
    · simp only [eq_false_of_ne_true hdue, if_neg Bool.false_ne_true]
      exact h
  | error e =>
    by_cases hdue : mainDue inp st = true
    · simp only [hdue, if_pos]
      cases hmr : inp.mainResult with
      | ok m => exact dmem_dupdate_left _ _ _ h
      | error e2 => exact h
    · simp only [eq_false_of_ne_true hdue, if_neg Bool.false_ne_true]
      exact h

theorem mergedBeforeIncrement_preserve (inp : CycleInput) (st : CoordState) (k : String)
    (hm : k ∉ mainWriteKeys inp st) (hc : k ∉ consoWriteKeys inp) :
    dlookup (mergedBeforeIncrement inp st) k = dlookup (st.data.getD []) k := by
  have hstep1 :
      dlookup (if mainDue inp st then
          match inp.mainResult with
          | Except.ok m => dupdate (st.data.getD []) m
          | Except.error _ => st.data.getD []
        else st.data.getD []) k = dlookup (st.data.getD []) k := by
    by_cases hdue : mainDue inp st = true
    · simp only [hdue, if_pos]
      cases hmr : inp.mainResult with
      | ok m =>
        have hkm : k ∉ m.map Prod.fst := by
          simpa [mainWriteKeys, hdue, hmr] using hm
        rw [dlookup_dupdate]
        simp [(wlookup_eq_none_iff m k).mpr hkm]
      | error e => rfl
    · simp [eq_false_of_ne_true hdue]
  simp only [mergedBeforeIncrement]
  cases hcr : inp.consumptionResult with
  | ok c =>
    have hkc : k ∉ c.map Prod.fst := by
      simpa [consoWriteKeys, hcr] using hc
    rw [dlookup_dupdate]
    simp only [(wlookup_eq_none_iff c k).mpr hkc]
    exact hstep1
  | error e => exact hstep1

theorem runCycle_of_try_error (inp : CycleInput) (st : CoordState) (e : String)
    (h : (runCycleTry inp st).1 = Except.error e) :
    (runCycle inp st).1 = Except.error ("Error communicating with API: " ++ e) ∧
    (runCycle inp st).2.data = (runCycleTry inp st).2.data := by
  rcases htry : runCycleTry inp st with ⟨r, st1⟩
  rw [htry] at h
  cases r with
  | ok d => simp at h
  | error e0 =>
    simp only [Prod.fst] at h
    cases h
    constructor
    · simp [runCycle, htry]
    · simp only [runCycle, htry]
      split <;> simp

theorem runCycle_of_try_ok (inp : CycleInput) (st : CoordState) (d : Dict)
    (h : (runCycleTry inp st).1 = Except.ok d) :
    (runCycle inp st).1 = Except.ok d ∧ (runCycle inp st).2.data = some d := by
  rcases htry : runCycleTry inp st with ⟨r, st1⟩
  rw [htry] at h
  cases r with
  | error e0 => simp at h
  | ok d0 =>
    simp only [Prod.fst] at h
    cases h
    exact ⟨by simp [runCycle, htry], by simp [runCycle, htry]⟩

theorem runCycleTry_ok_of_ok (inp : CycleInput) (st : CoordState) (d : Dict)
    (h : (runCycle inp st).1 = Except.ok d) :
    (runCycleTry inp st).1 = Except.ok d := by
  rcases htry : runCycleTry inp st with ⟨r, st1⟩
  cases r with
  | error e0 => simp [runCycle, htry] at h
  | ok d0 =>
    simp only [runCycle, htry] at h
    simp only [Prod.fst] at h ⊢
    simpa using h

/-!
## Claims
-/

/-- C1 counterexample: the Rollover-Aware Counter does not yield
`[0, 150, 140, 160]` on `[0, 150, 140, 300]`.  Because the stored
baseline starts at `0` and line 94 tests `_last_water_consumption > 0`,
the transition `0 -> 150` is treated like a first observation and its
increment is `0`, not `150 - 0`. -/
theorem rollover_claim_counterexample :
    runIncrements [0, 150, 140, 300] = [0, 0, 140, 160] ∧
    ([0, 0, 140, 160] : List Int) ≠ [0, 150, 140, 160] := by
  constructor
  · rfl
  · decide

/-- C1 (amended): the increment for observation `i` is `0` whenever
`i = 0` or the previously stored cumulative value is not positive (the
code treats a non-positive stored baseline as absent); otherwise it is
`vi - v(i-1)` for `vi >= v(i-1)` and `vi` for `vi < v(i-1)`.  The stored
baseline is updated to the current value after every computation.  The
input `[0, 150, 140, 300]` therefore yields `[0, 0, 140, 160]`. -/
theorem rollover_increment_amended (vals : List Int) :
    (runIncrements vals).length = vals.length ∧
    (∀ i, i < vals.length →
      (runIncrements vals).getD i 0 =
        (let prev := if i = 0 then 0 else vals.getD (i - 1) 0
         if prev > 0 then
           (if vals.getD i 0 < prev then vals.getD i 0 else vals.getD i 0 - prev)
         else 0)) ∧
    (∀ last v, (computeIncrement last v).2 = v) :=
  ⟨incrGo_length 0 vals, fun i hi => incrGo_getD 0 vals i hi, computeIncrement_snd⟩

theorem rollover_increment_amended_witness :
    (runIncrements [0, 150, 140, 300]).getD 1 0 = 0 :=
  ((rollover_increment_amended [0, 150, 140, 300]).2.1 1 (by decide)).trans (by decide)

/-- C2: for every sequence of non-negative cumulative counter values,
every increment computed by the Rollover-Aware Counter is `>= 0`. -/
theorem rollover_increment_nonneg (vals : List Int) (hv : ∀ v ∈ vals, 0 ≤ v) :
    ∀ x ∈ runIncrements vals, 0 ≤ x :=
  incrGo_nonneg 0 vals le_rfl hv

theorem rollover_increment_nonneg_witness :
    (0 : Int) ≤ (runIncrements [0, 150, 140, 300]).getD 3 0 :=
  rollover_increment_nonneg [0, 150, 140, 300] (by decide)
    ((runIncrements [0, 150, 140, 300]).getD 3 0) (by decide)

/-- C3 counterexample: on a payload whose `refreshDate` parses under no
candidate format, the fetch succeeds, but the refresh-date key is
present in the returned dict with value `None` (line 267 writes
`result["refresh_date"] = None`) rather than absent. -/
theorem refresh_date_absent_counterexample :
    getConsumptionData (fun _ _ => none)
        ⟨some ⟨Except.ok ()⟩,
         some ⟨Except.ok ⟨some "not-a-date", []⟩, Except.ok 5⟩⟩ =
      Except.ok [("salt_per_regen", Val.vInt 5), ("refresh_date", Val.vNone)] ∧
    dlookup [("salt_per_regen", Val.vInt 5), ("refresh_date", Val.vNone)] "refresh_date" ≠
      none := by
  constructor
  · rfl
  · decide

/-- C3 (amended): for every consumption payload whose non-empty
`refreshDate` string parses under none of the four candidate formats, a
consumption fetch that returns a result carries the refresh-date field
with value `None` (key present, not absent), and whether the fetch
succeeds never depends on the timestamp parse outcomes (the parse
failure is never propagated as an error). -/
theorem refresh_date_null_on_parse_failure
    (parse : String → String → Option Int) (o : ConsoOracle)
    (live : LiveDivO) (g : GraphDivO) (ds : Dataset) (n : Int) (s : String) (r : Dict)
    (hl : o.liveDiv = some live) (hp : live.propsParse = Except.ok ())
    (hg : o.graphDiv = some g) (hd : g.datasetParse = Except.ok ds)
    (hn : g.saltParse = Except.ok n)
    (hs : ds.refreshDate = some s) (hne : s ≠ "")
    (hfail : ∀ fmt ∈ tsFormats, parse s fmt = none)
    (hok : getConsumptionData parse o = Except.ok r) :
    dlookup r "refresh_date" = some Val.vNone ∧
    (∀ p2 : String → String → Option Int,
      exceptIsOk (getConsumptionData p2 o) = exceptIsOk (getConsumptionData parse o)) := by
  constructor
  · have hrun : getConsumptionData parse o =
        linesStep parse n ds.lines
          (refreshStep parse ds (dinsert [] "salt_per_regen" (Val.vInt n))) := by
      simp [getConsumptionData, hl, hp, hg, hd, hn]
    rw [hrun] at hok
    have href : refreshStep parse ds (dinsert [] "salt_per_regen" (Val.vInt n)) =
        dinsert (dinsert [] "salt_per_regen" (Val.vInt n)) "refresh_date" Val.vNone := by
      simp [refreshStep, hs, hne, firstFormatParse_none parse tsFormats s hfail]
    rw [href] at hok
    rw [linesStep_refresh_date parse n ds.lines _ r hok]
    simp [dlookup_dinsert]
  · intro p2
    exact getConsumptionData_isOk_eq p2 parse o

theorem refresh_date_null_on_parse_failure_witness :
    dlookup [("salt_per_regen", Val.vInt 7), ("refresh_date", Val.vNone)] "refresh_date" =
      some Val.vNone :=
  (refresh_date_null_on_parse_failure (fun _ _ => none)
    ⟨some ⟨Except.ok ()⟩, some ⟨Except.ok ⟨some "garbage", []⟩, Except.ok 7⟩⟩
    ⟨Except.ok ()⟩ ⟨Except.ok ⟨some "garbage", []⟩, Except.ok 7⟩ ⟨some "garbage", []⟩ 7
    "garbage" [("salt_per_regen", Val.vInt 7), ("refresh_date", Val.vNone)]
    rfl rfl rfl rfl rfl rfl (by decide) (fun fmt _ => rfl) rfl).1

/-- C6: in the consumption fetch, a missing live-component container is
a hard failure (lines 217-218), while a missing graph container in the
returned fragment yields an empty dict without raising (lines 240-241),
and merging an empty dict into the cycle's data is a no-op, so the cycle
proceeds with only main data and the prior snapshot. -/
theorem live_div_fatal_graph_div_nonfatal (parse : String → String → Option Int)
    (o : ConsoOracle) :
    (o.liveDiv = none → getConsumptionData parse o = Except.error "Live div not found") ∧
    (∀ live, o.liveDiv = some live → live.propsParse = Except.ok () → o.graphDiv = none →
      getConsumptionData parse o = Except.ok []) ∧
    (∀ d : Dict, dupdate d [] = d) := by
  refine ⟨?_, ?_, fun d => dupdate_nil d⟩
  · intro h
    simp [getConsumptionData, h]
  · intro live hl hp hg
    simp [getConsumptionData, hl, hp, hg]

theorem live_div_fatal_graph_div_nonfatal_witness :
    getConsumptionData (fun _ _ => none) ⟨none, none⟩ =
      Except.error "Live div not found" ∧
    getConsumptionData (fun _ _ => none) ⟨some ⟨Except.ok ()⟩, none⟩ = Except.ok [] :=
  ⟨(live_div_fatal_graph_div_nonfatal (fun _ _ => none) ⟨none, none⟩).1 rfl,
   (live_div_fatal_graph_div_nonfatal (fun _ _ => none) ⟨some ⟨Except.ok ()⟩, none⟩).2.1
     ⟨Except.ok ()⟩ rfl rfl rfl⟩

/-- C7: on a successful main fetch, every key other than the three base
keys holds the unchanged value of the last category item whose code maps
to it through the Canonical Field Catalog and whose value is non-null,
and is absent when no such item exists; in particular items with codes
outside the catalog never contribute any key. -/
theorem main_data_catalog_mapping (resp : MainResp) (p : MainPayload) (d : Dict)
    (hs : resp.status = 200) (hb : resp.body = Except.ok p)
    (hd : getMainData resp = Except.ok d) :
    (∀ k, dlookup d k =
      match wlookup (catWritesList p.dataCategories) k with
      | some v => some v
      | none => dlookup (mainBase p) k) ∧
    (∀ k, k ∉ (catWritesList p.dataCategories).map Prod.fst →
      k ≠ "online" → k ≠ "standby" → k ≠ "salt" → dlookup d k = none) := by
  rw [getMainData_eq resp p hs hb] at hd
  have hdd : dupdate (mainBase p) (catWritesList p.dataCategories) = d := by
    injection hd
  subst hdd
  refine ⟨fun k => dlookup_dupdate _ _ k, fun k hk h1 h2 h3 => ?_⟩
  have hw := (wlookup_eq_none_iff (catWritesList p.dataCategories) k).mpr hk
  simp [dlookup_dupdate, hw, dlookup_mainBase p k h1 h2 h3]

/-- Concrete vendor summary payload used to witness C7. -/
def c7payload : MainPayload :=
  { online := some (Val.vBool true),
    dataObj := some ⟨some (Val.vBool false), some (Val.vInt 250)⟩,
    dataCategories :=
      [("config", CatVal.list
        [⟨some "pressure", some (Val.vInt 3)⟩,
         ⟨some "unknownCode", some (Val.vInt 9)⟩,
         ⟨some "resinVol", none⟩])] }

theorem main_data_catalog_mapping_witness :
    dlookup [("online", Val.vBool true), ("standby", Val.vBool false),
      ("salt", Val.vInt 250), ("pressure", Val.vInt 3)] "pressure" = some (Val.vInt 3) ∧
    dlookup [("online", Val.vBool true), ("standby", Val.vBool false),
      ("salt", Val.vInt 250), ("pressure", Val.vInt 3)] "unknownCode" = none := by
  have h := main_data_catalog_mapping ⟨200, Except.ok c7payload⟩ c7payload
    [("online", Val.vBool true), ("standby", Val.vBool false),
     ("salt", Val.vInt 250), ("pressure", Val.vInt 3)] rfl rfl rfl
  exact ⟨(h.1 "pressure").trans (by decide), h.2 "unknownCode" (by decide)
    (by decide) (by decide) (by decide)⟩

/-- C4: in a cycle whose auth step passes and whose merged data carries
an integer (or no) cumulative value, if the merged snapshot (previous
snapshot plus this cycle's updates, including the increment) has fewer
than 3 fields the cycle fails with the insufficient-data error and the
published snapshot is unchanged; with 3 or more fields the cycle
publishes the merged snapshot. -/
theorem sufficiency_check_cycle (inp : CycleInput) (st : CoordState)
    (ha : authPasses inp st)
    (hw : ∀ v, dlookup (mergedBeforeIncrement inp st) "water_consumption" = some v →
      ∃ m, v = Val.vInt m) :
    ((mergedSnapshot inp st).length < 3 →
      (runCycle inp st).1 =
        Except.error "Error communicating with API: Insufficient data received" ∧
      (runCycle inp st).2.data = st.data) ∧
    (3 ≤ (mergedSnapshot inp st).length →
      (runCycle inp st).1 = Except.ok (mergedSnapshot inp st) ∧
      (runCycle inp st).2.data = some (mergedSnapshot inp st)) := by
  obtain ⟨stA, heq, hdata, hm2, hmS, hlm⟩ := runCycleTry_auth inp st ha
  have hw2 : ∀ v, dlookup (mergedBeforeIncrement inp stA) "water_consumption" = some v →
      ∃ m, v = Val.vInt m := by
    rw [hm2]; exact hw
  have hfst : (runCycleTry inp st).1 =
      (if (mergedSnapshot inp st).length < 3 then Except.error "Insufficient data received"
       else Except.ok (mergedSnapshot inp st)) := by
    rw [heq, runCycleBody_fst inp stA hw2, hmS]
  have hdata2 : (runCycleTry inp st).2.data = st.data := by
    rw [heq, (runCycleBody_state inp stA).1, hdata]
  constructor
  · intro hlen
    have h1 : (runCycleTry inp st).1 = Except.error "Insufficient data received" := by
      rw [hfst, if_pos hlen]
    have h2 := runCycle_of_try_error inp st _ h1
    exact ⟨h2.1.trans (congrArg Except.error (by decide)), h2.2.trans hdata2⟩
  · intro hlen
    have h1 : (runCycleTry inp st).1 = Except.ok (mergedSnapshot inp st) := by
      rw [hfst, if_neg (not_lt.mpr hlen)]
    exact runCycle_of_try_ok inp st _ h1

/-- Scenario E state: empty prior snapshot, token already held. -/
def c4st : CoordState :=
  { receiptLineKey := some "key", lastMainUpdate := 0, lastWaterConsumption := 0, data := none }

/-- Scenario E input: both fetches fail on the very first cycle. -/
def c4inp : CycleInput :=
  { now := 1000, intervalMain := 300, authResult := Except.ok "key",
    mainResult := Except.error "boom main", consumptionResult := Except.error "boom conso" }

theorem sufficiency_check_cycle_witness :
    (runCycle c4inp c4st).1 =
      Except.error "Error communicating with API: Insufficient data received" ∧
    (runCycle c4inp c4st).2.data = none := by
  have h := (sufficiency_check_cycle c4inp c4st (Or.inl rfl)
    (fun v hv => by rw [show mergedBeforeIncrement c4inp c4st = [] from rfl] at hv; cases hv)).1
    (by decide)
  exact h

/-- C8: whenever the try-block of a cycle raises, the cycle reports the
wrapped failure; the device-correlation token is cleared exactly when
the textual representation of the exception carries a 401 or 403
marker, and is left as the try-block left it otherwise. -/
theorem auth_marker_clears_token (inp : CycleInput) (st : CoordState) (e : String)
    (he : (runCycleTry inp st).1 = Except.error e) :
    (runCycle inp st).1 = Except.error ("Error communicating with API: " ++ e) ∧
    ((strContains e "401" || strContains e "403") = true →
      (runCycle inp st).2.receiptLineKey = none) ∧
    ((strContains e "401" || strContains e "403") = false →
      (runCycle inp st).2.receiptLineKey = (runCycleTry inp st).2.receiptLineKey) := by
  rcases htry : runCycleTry inp st with ⟨r, st1⟩
  rw [htry] at he
  cases r with
  | ok d => simp at he
  | error e0 =>
    simp only [Prod.fst] at he
    cases he
    refine ⟨by simp [runCycle, htry], ?_, ?_⟩
    · intro hmark
      simp [runCycle, htry, hmark]
    · intro hmark
      simp [runCycle, htry, hmark]

def c8st : CoordState :=
  { receiptLineKey := none, lastMainUpdate := 0, lastWaterConsumption := 0, data := none }

def c8inp : CycleInput :=
  { now := 0, intervalMain := 300, authResult := Except.error "HTTP 401 Unauthorized",
    mainResult := Except.error "x", consumptionResult := Except.error "y" }

theorem auth_marker_clears_token_witness :
    (runCycle c8inp c8st).2.receiptLineKey = none :=
  (auth_marker_clears_token c8inp c8st "HTTP 401 Unauthorized" rfl).2.1 (by decide)

/-- C5 counterexample state: a 5-field prior snapshot whose
`water_consumption` equals the stored baseline and whose
`water_increment` is 50. -/
def c5cst : CoordState :=
  { receiptLineKey := some "k", lastMainUpdate := 0, lastWaterConsumption := 100,
    data := some [("a", Val.vInt 1), ("b", Val.vInt 2), ("c", Val.vInt 3),
      ("water_consumption", Val.vInt 100), ("water_increment", Val.vInt 50)] }

/-- C5 counterexample input: both fetches fail, main not even due. -/
def c5cinp : CycleInput :=
  { now := 0, intervalMain := 300, authResult := Except.ok "k",
    mainResult := Except.error "boom", consumptionResult := Except.error "boom2" }

/-- The snapshot the C5 counterexample cycle publishes. -/
def c5cpub : Dict :=
  [("a", Val.vInt 1), ("b", Val.vInt 2), ("c", Val.vInt 3),
   ("water_consumption", Val.vInt 100), ("water_increment", Val.vInt 0)]

/-- C5 counterexample: in a cycle where no fetched update writes any key
(both fetch outcomes are errors), the field `water_increment` of the
previous snapshot is republished with value 0 instead of its previous
value 50: the increment recomputation of lines 92-102 runs on the
carried-over `water_consumption` and overwrites the field even though no
fetch touched it. -/
theorem snapshot_accumulate_counterexample :
    mainWriteKeys c5cinp c5cst = [] ∧
    consoWriteKeys c5cinp = [] ∧
    dlookup (c5cst.data.getD []) "water_increment" = some (Val.vInt 50) ∧
    (runCycle c5cinp c5cst).1 = Except.ok c5cpub ∧
    dlookup c5cpub "water_increment" = some (Val.vInt 0) ∧
    (some (Val.vInt 0) : Option Val) ≠ some (Val.vInt 50) :=
  ⟨rfl, rfl, rfl, rfl, rfl, by decide⟩

/-- C5 (amended): on every successful cycle the published snapshot still
contains every field of the previous snapshot (the snapshot is never
reset to empty, only extended or overwritten), and every field other
than `water_increment` that is not overwritten by this cycle's fetched
updates keeps its previous value; `water_increment` itself is recomputed
whenever the merged data carries a cumulative value. -/
theorem snapshot_accumulate_amended (inp : CycleInput) (st : CoordState) (d : Dict)
    (hok : (runCycle inp st).1 = Except.ok d) :
    (∀ k, dmem k (st.data.getD []) = true → dmem k d = true) ∧
    (∀ k, k ≠ "water_increment" → k ∉ mainWriteKeys inp st → k ∉ consoWriteKeys inp →
      dlookup d k = dlookup (st.data.getD []) k) := by
  have htryok := runCycleTry_ok_of_ok inp st d hok
  have hbody : ∃ stA : CoordState, runCycleTry inp st = runCycleBody inp stA ∧
      mergedBeforeIncrement inp stA = mergedBeforeIncrement inp st := by
    rcases hk : st.receiptLineKey with _ | k0
    · cases hkey : inp.authResult with
      | error e =>
        rw [runCycleTry_auth_error inp st e hk hkey] at htryok
        simp at htryok
      | ok key =>
        exact ⟨{ st with receiptLineKey := some key }, by simp [runCycleTry, hk, hkey], rfl⟩
    · exact ⟨st, by simp [runCycleTry, hk], rfl⟩
  obtain ⟨stA, heq, hm2⟩ := hbody
  rw [heq] at htryok
  cases hlk : dlookup (mergedBeforeIncrement inp stA) "water_consumption" with
  | none =>
    simp only [runCycleBody, hlk] at htryok
    split at htryok
    · simp at htryok
    · simp only [Prod.fst] at htryok
      cases htryok
      constructor
      · intro k hkmem
        rw [hm2]
        exact mergedBeforeIncrement_mem inp st k hkmem
      · intro k hne hmk hck
        rw [hm2]
        exact mergedBeforeIncrement_preserve inp st k hmk hck
  | some v =>
    cases v with
    | vInt current =>
      simp only [runCycleBody, hlk] at htryok
      split at htryok
      · simp at htryok
      · simp only [Prod.fst] at htryok
        cases htryok
        constructor
        · intro k hkmem
          refine dmem_dinsert _ _ _ _ ?_
          rw [hm2]
          exact mergedBeforeIncrement_mem inp st k hkmem
        · intro k hne hmk hck
          rw [dlookup_dinsert, if_neg hne, hm2]
          exact mergedBeforeIncrement_preserve inp st k hmk hck
    | vBool b => simp [runCycleBody, hlk] at htryok
    | vStr s => simp [runCycleBody, hlk] at htryok
    | vTime t => simp [runCycleBody, hlk] at htryok
    | vNone => simp [runCycleBody, hlk] at htryok

/-- Scenario D state: a 5-field snapshot from a previous cycle. -/
def c5dst : CoordState :=
  { receiptLineKey := some "k", lastMainUpdate := 0, lastWaterConsumption := 0,
    data := some [("online", Val.vBool true), ("standby", Val.vBool false),
      ("salt", Val.vInt 1), ("resin_vol", Val.vInt 20), ("pressure", Val.vInt 3)] }

/-- Scenario D input: the main fetch throws, the consumption fetch
succeeds. -/
def c5dinp : CycleInput :=
  { now := 1000, intervalMain := 300, authResult := Except.ok "k",
    mainResult := Except.error "main down",
    consumptionResult := Except.ok
      [("salt_per_regen", Val.vInt 100), ("water_consumption", Val.vInt 40)] }

/-- The snapshot Scenario D publishes: consumption fields merged over
the previous five. -/
def c5dpub : Dict :=
  [("online", Val.vBool true), ("standby", Val.vBool false), ("salt", Val.vInt 1),
   ("resin_vol", Val.vInt 20), ("pressure", Val.vInt 3),
   ("salt_per_regen", Val.vInt 100), ("water_consumption", Val.vInt 40),
   ("water_increment", Val.vInt 0)]

theorem snapshot_accumulate_amended_witness :
    dlookup c5dpub "online" = dlookup (c5dst.data.getD []) "online" ∧
    dmem "salt" c5dpub = true := by
  have h := snapshot_accumulate_amended c5dinp c5dst c5dpub rfl
  exact ⟨h.2 "online" (by decide) (by decide) (by decide), h.1 "salt" (by decide)⟩

theorem mainDue_self_interval (inp : CycleInput) (st stX : CoordState)
    (h : stX.lastMainUpdate = st.lastMainUpdate) :
    mainDue { inp with intervalMain := inp.now - st.lastMainUpdate } stX = false := by
  simp [mainDue, h]

theorem mergedBeforeIncrement_no_main (inp : CycleInput) (st : CoordState)
    (h : mainDue inp st = false ∨ mainFetchOk inp = false) :
    mergedBeforeIncrement inp st =
      (match inp.consumptionResult with
       | Except.ok c => dupdate (st.data.getD []) c
       | Except.error _ => st.data.getD []) := by
  simp only [mergedBeforeIncrement]
  rcases h with h | h
  · simp [h]
  · by_cases hdue : mainDue inp st = true
    · cases hmr : inp.mainResult with
      | ok m => simp [mainFetchOk, hmr] at h
      | error e => simp [hdue, hmr]
    · simp [eq_false_of_ne_true hdue]

theorem stAfterMain_no_main (inp : CycleInput) (st : CoordState)
    (h : mainDue inp st = false ∨ mainFetchOk inp = false) :
    stAfterMain inp st = st := by
  rcases h with h | h <;> simp [stAfterMain, h]

theorem runCycleBody_congr (inp1 inp2 : CycleInput) (st1 st2 : CoordState)
    (hm : mergedBeforeIncrement inp1 st1 = mergedBeforeIncrement inp2 st2)
    (hs : stAfterMain inp1 st1 = stAfterMain inp2 st2) :
    runCycleBody inp1 st1 = runCycleBody inp2 st2 := by
  simp only [runCycleBody, hm, hs]

/-- C9: a cycle in which the main fetch is due but fails behaves exactly
like the same cycle with the main fetch not due at all (same published
result, same final state): nothing is merged from the main fetch, the
cycle continues, and the last-main-fetch timestamp keeps its prior
value; the timestamp is advanced to the current time exactly when a due
main fetch succeeds. -/
theorem main_failure_frame (inp : CycleInput) (st : CoordState)
    (hdue : mainDue inp st = true) :
    (∀ e, inp.mainResult = Except.error e →
      runCycle inp st =
        runCycle { inp with intervalMain := inp.now - st.lastMainUpdate } st ∧
      (runCycle inp st).2.lastMainUpdate = st.lastMainUpdate) ∧
    (∀ m, inp.mainResult = Except.ok m → authPasses inp st →
      (runCycle inp st).2.lastMainUpdate = inp.now) := by
  constructor
  · intro e hme
    have hofk : mainFetchOk inp = false := by simp [mainFetchOk, hme]
    have hbody : ∀ stX : CoordState, stX.lastMainUpdate = st.lastMainUpdate →
        runCycleBody inp stX =
          runCycleBody { inp with intervalMain := inp.now - st.lastMainUpdate } stX := by
      intro stX hX
      apply runCycleBody_congr
      · rw [mergedBeforeIncrement_no_main inp stX (Or.inr hofk),
          mergedBeforeIncrement_no_main _ stX (Or.inl (mainDue_self_interval inp st stX hX))]
      · rw [stAfterMain_no_main inp stX (Or.inr hofk),
          stAfterMain_no_main _ stX (Or.inl (mainDue_self_interval inp st stX hX))]
    have htry : runCycleTry inp st =
        runCycleTry { inp with intervalMain := inp.now - st.lastMainUpdate } st := by
      set inp2 : CycleInput := { inp with intervalMain := inp.now - st.lastMainUpdate }
        with hinp2
      have hauth2 : inp2.authResult = inp.authResult := by rw [hinp2]
      rcases hk : st.receiptLineKey with _ | k0
      · rcases hkey : inp.authResult with e2 | key
        · rw [runCycleTry_auth_error inp st e2 hk hkey,
            runCycleTry_auth_error inp2 st e2 hk (hauth2.trans hkey)]
        · have h1 : runCycleTry inp st =
              runCycleBody inp { st with receiptLineKey := some key } := by
            simp [runCycleTry, hk, hkey]
          have h2 : runCycleTry inp2 st =
              runCycleBody inp2 { st with receiptLineKey := some key } := by
            simp [runCycleTry, hk, hauth2, hkey]
          rw [h1, h2, hinp2]
          exact hbody { st with receiptLineKey := some key } rfl
      · have h1 : runCycleTry inp st = runCycleBody inp st := by simp [runCycleTry, hk]
        have h2 : runCycleTry inp2 st = runCycleBody inp2 st := by
          simp [runCycleTry, hk]
        rw [h1, h2, hinp2]
        exact hbody st rfl
    constructor
    · simp only [runCycle, htry]
    · rw [runCycle_lastMain]
      rcases hk : st.receiptLineKey with _ | k0
      · cases hkey : inp.authResult with
        | error e2 => rw [runCycleTry_auth_error inp st e2 hk hkey]
        | ok key =>
          have h1 : runCycleTry inp st =
              runCycleBody inp { st with receiptLineKey := some key } := by
            simp [runCycleTry, hk, hkey]
          rw [h1, (runCycleBody_state _ _).2.2, stAfterMain_no_main _ _ (Or.inr hofk)]
      · have h1 : runCycleTry inp st = runCycleBody inp st := by simp [runCycleTry, hk]
        rw [h1, (runCycleBody_state _ _).2.2, stAfterMain_no_main _ _ (Or.inr hofk)]
  · intro m hmr ha
    rw [runCycle_lastMain]
    obtain ⟨stA, heq, hdata, hm2, hmS, hlm⟩ := runCycleTry_auth inp st ha
    rw [heq, (runCycleBody_state _ _).2.2, hlm]
    simp [stAfterMain, hdue, mainFetchOk, hmr]

def c9st : CoordState :=
  { receiptLineKey := some "k", lastMainUpdate := 0, lastWaterConsumption := 0,
    data := some [("x", Val.vInt 1)] }

def c9inp : CycleInput :=
  { now := 1000, intervalMain := 300, authResult := Except.ok "k",
    mainResult := Except.error "main fetch failed",
    consumptionResult := Except.error "conso failed" }

theorem main_failure_frame_witness :
    runCycle c9inp c9st =
      runCycle { c9inp with intervalMain := c9inp.now - c9st.lastMainUpdate } c9st ∧
    (runCycle c9inp c9st).2.lastMainUpdate = 0 :=
  (main_failure_frame c9inp c9st (by decide)).1 "main fetch failed" rfl

/-- C10: every successful main fetch returns a mapping containing at
least the keys `online`, `standby` and `salt`; consequently a cycle
whose main fetch is due and succeeds can never fail with the
insufficient-data error. -/
theorem main_success_min_fields (resp : MainResp) (p : MainPayload) (m : Dict)
    (inp : CycleInput) (st : CoordState)
    (hs : resp.status = 200) (hb : resp.body = Except.ok p)
    (hm : getMainData resp = Except.ok m)
    (ha : authPasses inp st) (hdue : mainDue inp st = true)
    (hmr : inp.mainResult = Except.ok m) :
    (dmem "online" m = true ∧ dmem "standby" m = true ∧ dmem "salt" m = true) ∧
    (runCycle inp st).1 ≠
      Except.error "Error communicating with API: Insufficient data received" := by
  rw [getMainData_eq resp p hs hb] at hm
  have hmm : dupdate (mainBase p) (catWritesList p.dataCategories) = m := by injection hm
  have hbase : ∀ k, dmem k (mainBase p) = true → dmem k m = true := by
    intro k hk
    rw [← hmm]
    exact dmem_dupdate_left _ _ _ hk
  have hon := hbase "online" (by simp [dmem, mainBase, dlookup_dinsert])
  have hsb := hbase "standby" (by simp [dmem, mainBase, dlookup_dinsert])
  have hsa := hbase "salt" (by simp [dmem, mainBase, dlookup_dinsert])
  refine ⟨⟨hon, hsb, hsa⟩, ?_⟩
  have hmem : ∀ k, dmem k m = true → dmem k (mergedBeforeIncrement inp st) = true := by
    intro k hk
    have hkm : k ∈ m.map Prod.fst := by
      obtain ⟨v, hv⟩ := Option.isSome_iff_exists.mp (by simpa [dmem] using hk)
      exact mem_keys_of_dlookup hv
    have hexp : mergedBeforeIncrement inp st =
        (match inp.consumptionResult with
         | Except.ok c => dupdate (dupdate (st.data.getD []) m) c
         | Except.error _ => dupdate (st.data.getD []) m) := by
      simp [mergedBeforeIncrement, hdue, hmr]
    rw [hexp]
    cases hcr : inp.consumptionResult with
    | ok c => exact dmem_dupdate_left _ _ _ (dmem_dupdate_right _ _ _ hkm)
    | error e => exact dmem_dupdate_right _ _ _ hkm
  obtain ⟨stA, heq, hdata, hm2, hmS, hlm⟩ := runCycleTry_auth inp st ha
  intro hcontra
  cases hlk : dlookup (mergedBeforeIncrement inp stA) "water_consumption" with
  | none =>
    have hlen : 3 ≤ (mergedBeforeIncrement inp stA).length := by
      rw [hm2]
      exact three_dmem_length _ "online" "standby" "salt" (by decide) (by decide) (by decide)
        (hmem _ hon) (hmem _ hsb) (hmem _ hsa)
    have hfst : (runCycleTry inp st).1 = Except.ok (mergedBeforeIncrement inp stA) := by
      rw [heq]
      simp only [runCycleBody, hlk]
      rw [isEmpty_or_lt3, if_neg (by simpa using not_lt.mpr hlen)]
    exact Except.noConfusion ((runCycle_of_try_ok inp st _ hfst).1.symm.trans hcontra)
  | some v =>
    cases v with
    | vInt current =>
      have hlen : 3 ≤ (dinsert (mergedBeforeIncrement inp stA) "water_increment"
          (Val.vInt (computeIncrement (stAfterMain inp stA).lastWaterConsumption
            current).1)).length := by
        refine three_dmem_length _ "online" "standby" "salt" (by decide) (by decide)
          (by decide) ?_ ?_ ?_
        · exact dmem_dinsert _ _ _ _ (by rw [hm2]; exact hmem _ hon)
        · exact dmem_dinsert _ _ _ _ (by rw [hm2]; exact hmem _ hsb)
        · exact dmem_dinsert _ _ _ _ (by rw [hm2]; exact hmem _ hsa)
      have hfst : (runCycleTry inp st).1 =
          Except.ok (dinsert (mergedBeforeIncrement inp stA) "water_increment"
            (Val.vInt (computeIncrement (stAfterMain inp stA).lastWaterConsumption
              current).1)) := by
        rw [heq]
        simp only [runCycleBody, hlk]
        rw [isEmpty_or_lt3, if_neg (by simpa using not_lt.mpr hlen)]
      exact Except.noConfusion ((runCycle_of_try_ok inp st _ hfst).1.symm.trans hcontra)
    | vBool b =>
      have hfst : (runCycleTry inp st).1 =
          Except.error "TypeError: unsupported comparison of str and int" := by
        rw [heq]; simp [runCycleBody, hlk]
      rw [(runCycle_of_try_error inp st _ hfst).1] at hcontra
      injection hcontra with hstr
      exact absurd hstr (by decide)
    | vStr s =>
      have hfst : (runCycleTry inp st).1 =
          Except.error "TypeError: unsupported comparison of str and int" := by
        rw [heq]; simp [runCycleBody, hlk]
      rw [(runCycle_of_try_error inp st _ hfst).1] at hcontra
      injection hcontra with hstr
      exact absurd hstr (by decide)
    | vTime t =>
      have hfst : (runCycleTry inp st).1 =
          Except.error "TypeError: unsupported comparison of str and int" := by
        rw [heq]; simp [runCycleBody, hlk]
      rw [(runCycle_of_try_error inp st _ hfst).1] at hcontra
      injection hcontra with hstr
      exact absurd hstr (by decide)
    | vNone =>
      have hfst : (runCycleTry inp st).1 =
          Except.error "TypeError: unsupported comparison of str and int" := by
        rw [heq]; simp [runCycleBody, hlk]
      rw [(runCycle_of_try_error inp st _ hfst).1] at hcontra
      injection hcontra with hstr
      exact absurd hstr (by decide)

def c10payload : MainPayload :=
  { online := none, dataObj := none, dataCategories := [] }

def c10m : Dict :=
  [("online", Val.vBool false), ("standby", Val.vBool false), ("salt", Val.vNone)]

def c10st : CoordState :=
  { receiptLineKey := some "k", lastMainUpdate := 0, lastWaterConsumption := 0, data := none }

def c10inp : CycleInput :=
  { now := 1000, intervalMain := 300, authResult := Except.ok "k",
    mainResult := Except.ok c10m, consumptionResult := Except.error "conso down" }

theorem main_success_min_fields_witness :
    (dmem "online" c10m = true ∧ dmem "standby" c10m = true ∧ dmem "salt" c10m = true) ∧
    (runCycle c10inp c10st).1 ≠
      Except.error "Error communicating with API: Insufficient data received" :=
  main_success_min_fields ⟨200, Except.ok c10payload⟩ c10payload c10m c10inp c10st
    rfl rfl rfl (Or.inl rfl) (by decide) rfl

end BWT
